import Mathlib

/-!
Shallow embedding of the four lookup components of the `forensics_tools`
repository (`arin_whois_lookup.py`, `ip_reputation_lookup.py`,
`ip_geolocation_lookup.py`, `mac_address_vendor_lookup.py`).

Modelling conventions:
* JSON payloads are modelled by the inductive `Json`; integers stand in for
  JSON numbers (no claim exercises float arithmetic).
* Python dictionary indexing `d[k]` is `Json.index`: a missing key is a
  `KeyError`, indexing a non-dict is a `TypeError` (only `KeyError` is caught
  by the sources' `except KeyError` handlers).
* The network is an oracle: each fetch is given a `NetResult` describing what
  `requests` would have produced for that identifier (a decoded response, a
  connection error, or a timeout).
* A Python call either returns a value, calls `sys.exit`, or lets an
  exception escape; this is the `Outcome` type.
* Console reporting (`colorized_text`) and the pacing `sleep` are effects with
  no bearing on returned data and are not modelled.
* `json.dumps` is `jsonDumps` (default separators, quote/backslash escaping),
  Python `str.strip` of the quote character is `stripQuotes`, f-string
  interpolation of a decoded value is `pyStr`, and `int(...)` on a string is
  `pyInt`.
-/

/-- Decoded JSON values, as produced by `json.loads` / `response.json()`. -/
inductive Json where
  | null : Json
  | bool (b : Bool) : Json
  | num (n : Int) : Json
  | str (s : String) : Json
  | arr (items : List Json) : Json
  | obj (fields : List (String × Json)) : Json

/-- Python exceptions that the modelled code can raise or catch. -/
inductive PyExn where
  | keyError
  | typeError
  | indexError
  | valueError
  | reqTimeout
  | reqConnectionError
deriving DecidableEq, Repr

/-- Result of a Python call: a normal return, `sys.exit(code)`, or an
uncaught exception propagating to the caller. -/
inductive Outcome (α : Type) where
  | ret (a : α) : Outcome α
  | exit (code : Nat) : Outcome α
  | exn (e : PyExn) : Outcome α
deriving DecidableEq, Repr

def Outcome.map (f : α → β) : Outcome α → Outcome β
  | .ret a => .ret (f a)
  | .exit c => .exit c
  | .exn e => .exn e

/-- Python scalar-or-list-or-None return shape `dict | list[dict] | None`. -/
inductive PyValue (ρ : Type) where
  | one (r : ρ) : PyValue ρ
  | many (rs : List ρ) : PyValue ρ
  | pyNone : PyValue ρ
deriving DecidableEq, Repr

/-- What the network produced for one HTTP request: a response with a status
code and an already-decoded JSON body, or a transport failure. -/
inductive NetResult where
  | ok (status_code : Nat) (body : Json) : NetResult
  | connectionError : NetResult
  | timeout : NetResult

/-- One lookup invocation's input: the Python code branches on
`isinstance(self.lookup_value, str)` versus `list`.  Each identifier is
paired with the network's behaviour for its own fetch. -/
inductive LookupInput where
  | scalar (id : String) (net : NetResult) : LookupInput
  | list (items : List (String × NetResult)) : LookupInput

namespace Json

/-- Python `d[k]`: `KeyError` when `k` is absent from a dict, `TypeError`
when `d` is not a dict (string indexing by a string key is also a
`TypeError`). -/
def index : Json → String → Except PyExn Json
  | .obj fields, k =>
      match fields.lookup k with
      | some v => .ok v
      | none => .error .keyError
  | _, _ => .error .typeError

/-- Python `d[0]`: first element of a list (`IndexError` when empty), a
`KeyError` on a dict whose keys are strings, first character of a nonempty
string, `TypeError` otherwise. -/
def index0 : Json → Except PyExn Json
  | .arr (v :: _) => .ok v
  | .arr [] => .error .indexError
  | .obj _ => .error .keyError
  | .str s =>
      match s.toList with
      | c :: _ => .ok (.str (String.singleton c))
      | [] => .error .indexError
  | _ => .error .typeError

/-- Python truthiness of a decoded JSON value (`if data:`). -/
def truthy : Json → Bool
  | .null => false
  | .bool b => b
  | .num n => n != 0
  | .str s => s != ""
  | .arr [] => false
  | .arr (_ :: _) => true
  | .obj [] => false
  | .obj (_ :: _) => true

end Json

/-- Escaping applied by `json.dumps` to the characters the model cares
about (quote and backslash; other escapes are not exercised). -/
def jsonEscape (s : String) : String :=
  String.mk (s.toList.foldr
    (fun c acc =>
      (if c = '"' then ['\\', '"'] else if c = '\\' then ['\\', '\\'] else [c]) ++ acc)
    [])

mutual

/-- `json.dumps` with its default separators. -/
def jsonDumps : Json → String
  | .null => "null"
  | .bool true => "true"
  | .bool false => "false"
  | .num n => toString n
  | .str s => "\"" ++ jsonEscape s ++ "\""
  | .arr items => "[" ++ jsonDumpsList items ++ "]"
  | .obj fields => "\x7b" ++ jsonDumpsFields fields ++ "\x7d"

def jsonDumpsList : List Json → String
  | [] => ""
  | [v] => jsonDumps v
  | v :: rest => jsonDumps v ++ ", " ++ jsonDumpsList rest

def jsonDumpsFields : List (String × Json) → String
  | [] => ""
  | [(k, v)] => "\"" ++ jsonEscape k ++ "\": " ++ jsonDumps v
  | (k, v) :: rest => "\"" ++ jsonEscape k ++ "\": " ++ jsonDumps v ++ ", " ++ jsonDumpsFields rest

end

mutual

/-- Python `repr` of a decoded JSON value (used by `str` on containers). -/
def pyRepr : Json → String
  | .null => "None"
  | .bool true => "True"
  | .bool false => "False"
  | .num n => toString n
  | .str s => "'" ++ s ++ "'"
  | .arr items => "[" ++ pyReprList items ++ "]"
  | .obj fields => "\x7b" ++ pyReprFields fields ++ "\x7d"

def pyReprList : List Json → String
  | [] => ""
  | [v] => pyRepr v
  | v :: rest => pyRepr v ++ ", " ++ pyReprList rest

def pyReprFields : List (String × Json) → String
  | [] => ""
  | [(k, v)] => "'" ++ k ++ "': " ++ pyRepr v
  | (k, v) :: rest => "'" ++ k ++ "': " ++ pyRepr v ++ ", " ++ pyReprFields rest

end

/-- Python `str` of a decoded JSON value, as an f-string interpolates it. -/
def pyStr : Json → String
  | .str s => s
  | v => pyRepr v

/-- Python `s.strip(sep)` for the quote character: drop every leading and
trailing quote. -/
def stripQuotes (s : String) : String :=
  String.mk (((s.toList.dropWhile (· = '"')).reverse.dropWhile (· = '"')).reverse)

/-- Accumulate a decimal numeral; `none` as soon as a non-digit appears. -/
def digitsToNat : List Char → Nat → Option Nat
  | [], acc => some acc
  | c :: cs, acc =>
      if c.isDigit then digitsToNat cs (acc * 10 + (c.toNat - 48)) else none

/-- Python `int(s)`: parse an (optionally signed) decimal integer literal,
raising `ValueError` otherwise (surrounding whitespace, which Python would
also accept, is not exercised by any modelled value). -/
def pyInt (s : String) : Except PyExn Int :=
  match s.toList with
  | '-' :: c :: cs =>
      match digitsToNat (c :: cs) 0 with
      | some n => .ok (-(n : Int))
      | none => .error .valueError
  | '+' :: c :: cs =>
      match digitsToNat (c :: cs) 0 with
      | some n => .ok (n : Int)
      | none => .error .valueError
  | c :: cs =>
      match digitsToNat (c :: cs) 0 with
      | some n => .ok (n : Int)
      | none => .error .valueError
  | [] => .error .valueError

/-! ## `ip_reputation_lookup.py` — class `IPReputation` -/

/-- The flat record assembled by `IPReputation._decoded_json`. -/
structure RepRecord where
  ip_address : String
  domain_name : String
  host_name : String
  usage_type : String
  isp_name : String
  country_code : String
  confidence_of_abuse : String
  level_of_abuse : Option String
  white_listed : String
  tor_node : String
  number_of_times_reported : String
  date_last_reported : String
deriving DecidableEq, Repr

namespace IPReputation

/-- `decoded_response["errors"][0]['detail']`, as read by the 401/422/429
branches of `_get_json_data`. -/
def error_detail (body : Json) : Except PyExn Json := do
  let errors ← body.index "errors"
  let first ← errors.index0
  first.index "detail"

/-- `IPReputation._get_json_data`: on 401/422/429 the error detail is
formatted and reported, then the function falls through to `return None`;
on 200 the decoded body is returned; a connection error or timeout calls
`sys.exit(1)`; any other status code falls through to `return None`. -/
def get_json_data (ip_address api_key : String) (net : NetResult) : Outcome (Option Json) :=
  match net with
  | .connectionError => .exit 1
  | .timeout => .exit 1
  | .ok status_code body =>
      if status_code = 401 then
        match error_detail body with
        | .ok _ => .ret none
        | .error e => .exn e
      else if status_code = 422 then
        match error_detail body with
        | .ok _ => .ret none
        | .error e => .exn e
      else if status_code = 429 then
        match error_detail body with
        | .ok _ => .ret none
        | .error e => .exn e
      else if status_code = 200 then .ret (some body)
      else .ret none

/-- `IPReputation._determine_abuse_level`, branch for branch (including the
source's spelling of the returned strings). -/
def determine_abuse_level (confidence_score : Int) : Option String :=
  if confidence_score = 0 then
    some "not malicious"
  else if confidence_score = 100 then
    some "is malicious and warrants additional investigation"
  else if 100 > confidence_score ∧ confidence_score > 25 then
    some "likley malicious and warrants further investigation"
  else if 0 < confidence_score ∧ confidence_score ≤ 25 then
    some "likley not malicious but warrants further investigation"
  else none

/-- `json_data["data"][key]`, the read performed by every line of
`_decoded_json`. -/
def data_field (json_data : Json) (key : String) : Except PyExn Json := do
  let d ← json_data.index "data"
  d.index key

/-- `IPReputation._decoded_json`: eleven nested reads with no exception
handler — a missing key raises out of the function. -/
def decoded_json (json_data : Json) : Except PyExn RepRecord := do
  let ip_address := jsonDumps (← data_field json_data "ipAddress")
  let domain_name := jsonDumps (← data_field json_data "domain")
  let host_name := jsonDumps (← data_field json_data "hostnames")
  let usage_type := jsonDumps (← data_field json_data "usageType")
  let isp_name := jsonDumps (← data_field json_data "isp")
  let country_code := jsonDumps (← data_field json_data "countryCode")
  let confidence_of_abuse := jsonDumps (← data_field json_data "abuseConfidenceScore")
  let level_of_abuse := determine_abuse_level (← pyInt confidence_of_abuse)
  let white_listed := jsonDumps (← data_field json_data "isWhitelisted")
  let tor_node := jsonDumps (← data_field json_data "isTor")
  let times_reported := jsonDumps (← data_field json_data "totalReports")
  let date_last_reported := jsonDumps (← data_field json_data "lastReportedAt")
  pure {
    ip_address := stripQuotes ip_address
    domain_name := stripQuotes domain_name
    host_name := host_name
    usage_type := stripQuotes usage_type
    isp_name := stripQuotes isp_name
    country_code := stripQuotes country_code
    confidence_of_abuse := stripQuotes confidence_of_abuse
    level_of_abuse := level_of_abuse
    white_listed := stripQuotes white_listed
    tor_node := stripQuotes tor_node
    number_of_times_reported := stripQuotes times_reported
    date_last_reported := stripQuotes date_last_reported
  }

/-- The list branch of `query_abuse_database`: identifiers whose fetch
produced no (truthy) data are skipped. -/
def query_abuse_list (api_key : String) : List (String × NetResult) → Outcome (List RepRecord)
  | [] => .ret []
  | (item, net) :: rest =>
      match get_json_data item api_key net with
      | .exit c => .exit c
      | .exn e => .exn e
      | .ret (some j) =>
          if j.truthy then
            match decoded_json j with
            | .error e => .exn e
            | .ok r => (query_abuse_list api_key rest).map (r :: ·)
          else query_abuse_list api_key rest
      | .ret none => query_abuse_list api_key rest

/-- `IPReputation.query_abuse_database`. -/
def query_abuse_database (lookup_value : LookupInput) (api_key : String) :
    Outcome (PyValue RepRecord) :=
  match lookup_value with
  | .scalar id net =>
      match get_json_data id api_key net with
      | .exit c => .exit c
      | .exn e => .exn e
      | .ret (some j) =>
          if j.truthy then
            match decoded_json j with
            | .error e => .exn e
            | .ok r => .ret (.one r)
          else .ret .pyNone
      | .ret none => .ret .pyNone
  | .list items => (query_abuse_list api_key items).map .many

end IPReputation

/-! ## `arin_whois_lookup.py` — class `ArinWhois` -/

/-- The flat record assembled by `ArinWhois.query_whois` for one identifier.
`organization` holds the raw value returned by
`_get_registered_organization` (a decoded JSON value or the sentinel
string); `network` and `cidr` are f-string results. -/
structure ArinRecord where
  ip_address : String
  organization : Option Json
  network : Option String
  cidr : Option String

namespace ArinWhois

/-- The class attribute `data: dict = ...`, initially an empty dict. -/
def initial_data : Json := .obj []

/-- `ArinWhois._get_whois_json`: on 200 the class-level `data` slot is
overwritten with the decoded body, which is also returned; on any other
status, timeout, or request exception the slot is left unchanged and the
function reports and returns `None`.  First component: the class slot after
the call; second: the returned value. -/
def get_whois_json (data : Json) (ip_address : String) (net : NetResult) :
    Json × Option Json :=
  match net with
  | .ok status_code body =>
      if status_code = 200 then (body, some body) else (data, none)
  | .timeout => (data, none)
  | .connectionError => (data, none)

/-- `cls.data['net']['orgRef']['@name']`. -/
def org_name (data : Json) : Except PyExn Json := do
  let net ← data.index "net"
  let orgRef ← net.index "orgRef"
  orgRef.index "@name"

/-- `cls.data['net']['netBlocks']['netBlock'][key]['$']`. -/
def net_block_field (data : Json) (key : String) : Except PyExn Json := do
  let net ← data.index "net"
  let netBlocks ← net.index "netBlocks"
  let netBlock ← netBlocks.index "netBlock"
  let inner ← netBlock.index key
  inner.index "$"

/-- `ArinWhois._get_registered_organization`: sentinel when the name is
falsy, the name itself otherwise; `KeyError` is caught (reported, `None`
returned); other exceptions propagate. -/
def get_registered_organization (data : Json) : Except PyExn (Option Json) :=
  match (do
      let name ← org_name data
      if name.truthy then pure (some name)
      else pure (some (Json.str "registered organization unavailable")) :
      Except PyExn (Option Json)) with
  | .error .keyError => .ok none
  | other => other

/-- `ArinWhois._get_network_range`: `f'{start}-{end}'`, sentinel when the
start address is falsy, `KeyError` caught. -/
def get_network_range (data : Json) : Except PyExn (Option String) :=
  match (do
      let startVal ← net_block_field data "startAddress"
      if startVal.truthy then do
        let endVal ← net_block_field data "endAddress"
        pure (some (pyStr startVal ++ "-" ++ pyStr endVal))
      else pure (some "netblock range unavailable") :
      Except PyExn (Option String)) with
  | .error .keyError => .ok none
  | other => other

/-- `ArinWhois._get_cidr_range`: `f'{start}/{cidrLength}'`, sentinel when
the start address is falsy, `KeyError` caught. -/
def get_cidr_range (data : Json) : Except PyExn (Option String) :=
  match (do
      let startVal ← net_block_field data "startAddress"
      if startVal.truthy then do
        let cidrVal ← net_block_field data "cidrLength"
        pure (some (pyStr startVal ++ "/" ++ pyStr cidrVal))
      else pure (some "CIDR range unavailable") :
      Except PyExn (Option String)) with
  | .error .keyError => .ok none
  | other => other

/-- The record-assembly lines shared by both branches of `query_whois`:
the three extraction helpers read the class-level `data` slot. -/
def build_record (ip : String) (data : Json) : Except PyExn ArinRecord := do
  let registered_organization ← get_registered_organization data
  let network_range ← get_network_range data
  let cidr_range ← get_cidr_range data
  pure ⟨ip, registered_organization, network_range, cidr_range⟩

/-- The list branch of `query_whois`: a record is appended for every
identifier, unconditionally; the fetch's return value is ignored and the
extraction helpers read whatever the class slot holds afterwards. -/
def query_whois_list (data : Json) : List (String × NetResult) → Json × Outcome (List ArinRecord)
  | [] => (data, .ret [])
  | (item, net) :: rest =>
      let d1 := (get_whois_json data item net).1
      match build_record item d1 with
      | .error e => (d1, .exn e)
      | .ok r =>
          let next := query_whois_list d1 rest
          (next.1, next.2.map (r :: ·))

/-- `ArinWhois.query_whois`, threaded over the class-level `data` slot. -/
def query_whois (data : Json) (lookup_value : LookupInput) :
    Json × Outcome (PyValue ArinRecord) :=
  match lookup_value with
  | .scalar id net =>
      let d1 := (get_whois_json data id net).1
      match build_record id d1 with
      | .error e => (d1, .exn e)
      | .ok r => (d1, .ret (.one r))
  | .list items =>
      let next := query_whois_list data items
      (next.1, next.2.map .many)

end ArinWhois

/-! ## `ip_geolocation_lookup.py` — class `IPGeoLocation` -/

/-- The flat record assembled by `IPGeoLocation._decoded_json`. -/
structure GeoRecord where
  ip_address : String
  domain_name : String
  as_number : String
  isp_name : String
  country_code : String
  region_name : String
  city_name : String
  longitude : String
  latitude : String
  timezone : String
deriving DecidableEq, Repr

/-- Python `s.split(sep=" ", maxsplit=1)[0]`: the prefix before the first
space. -/
def splitFirstSpace (s : String) : String :=
  String.mk (s.toList.takeWhile (· ≠ ' '))

namespace IPGeoLocation

/-- `IPGeoLocation._get_json_data`: on 200 the body's `status` field is
consulted (a missing field raises `KeyError` uncaught): `'fail'` is reported
and yields `None`, `'success'` returns the body, anything else falls through
to `return None`; a connection error or timeout calls `sys.exit(1)`; other
status codes yield `None`. -/
def get_json_data (ip_address : String) (net : NetResult) : Outcome (Option Json) :=
  match net with
  | .connectionError => .exit 1
  | .timeout => .exit 1
  | .ok status_code body =>
      if status_code = 200 then
        match body.index "status" with
        | .error e => .exn e
        | .ok query_status =>
            match query_status with
            | .str s =>
                if s = "fail" then .ret none
                else if s = "success" then .ret (some body)
                else .ret none
            | _ => .ret none
      else .ret none

/-- `IPGeoLocation._decoded_json`: ten reads with no exception handler — a
missing key raises out of the function.  Note the source assigns the raw
`lat` value to the local named `longitude` and the raw `lon` value to the
local named `latitude`. -/
def decoded_json (json_data : Json) : Except PyExn GeoRecord := do
  let ip_address := jsonDumps (← json_data.index "query")
  let organization_name := jsonDumps (← json_data.index "org")
  let isp_name := jsonDumps (← json_data.index "isp")
  let country_code := jsonDumps (← json_data.index "countryCode")
  let region_name := jsonDumps (← json_data.index "regionName")
  let city_name := jsonDumps (← json_data.index "city")
  let longitude := jsonDumps (← json_data.index "lat")
  let latitude := jsonDumps (← json_data.index "lon")
  let timezone := jsonDumps (← json_data.index "timezone")
  let as_number := splitFirstSpace (jsonDumps (← json_data.index "as"))
  pure {
    ip_address := stripQuotes ip_address
    domain_name := stripQuotes organization_name
    as_number := stripQuotes as_number
    isp_name := stripQuotes isp_name
    country_code := stripQuotes country_code
    region_name := region_name
    city_name := stripQuotes city_name
    longitude := stripQuotes longitude
    latitude := stripQuotes latitude
    timezone := stripQuotes timezone
  }

/-- The list branch of `query_geolocation_database`: identifiers whose fetch
produced no (truthy) data are skipped. -/
def query_geo_list : List (String × NetResult) → Outcome (List GeoRecord)
  | [] => .ret []
  | (item, net) :: rest =>
      match get_json_data item net with
      | .exit c => .exit c
      | .exn e => .exn e
      | .ret (some j) =>
          if j.truthy then
            match decoded_json j with
            | .error e => .exn e
            | .ok r => (query_geo_list rest).map (r :: ·)
          else query_geo_list rest
      | .ret none => query_geo_list rest

/-- `IPGeoLocation.query_geolocation_database`. -/
def query_geolocation_database (lookup_value : LookupInput) : Outcome (PyValue GeoRecord) :=
  match lookup_value with
  | .scalar id net =>
      match get_json_data id net with
      | .exit c => .exit c
      | .exn e => .exn e
      | .ret (some j) =>
          if j.truthy then
            match decoded_json j with
            | .error e => .exn e
            | .ok r => .ret (.one r)
          else .ret .pyNone
      | .ret none => .ret .pyNone
  | .list items => (query_geo_list items).map .many

end IPGeoLocation

/-! ## `mac_address_vendor_lookup.py` — class `MacAddressLookup` -/

/-- The flat record assembled by `MacAddressLookup.lookup_address_information`
for one identifier.  The three extracted fields hold the raw values (or
sentinel strings) returned by the class-level extraction helpers. -/
structure MacRecord where
  mac_address : String
  registered_organization : Option Json
  organization_address : Option Json
  country : Option Json

namespace MacAddressLookup

/-- The class attribute `data: dict = ...`, initially an empty dict. -/
def initial_data : Json := .obj []

/-- `MacAddressLookup._get_json_data`: the request has no exception handler,
so a connection error or timeout propagates as an uncaught `requests`
exception; 400, 401 and 429 call `sys.exit(1)`; on 200 the class-level
`data` slot is overwritten with the decoded body, which is also returned;
any other status returns `None` with the slot unchanged.  First component:
the class slot after the call; second: the call's outcome. -/
def get_json_data (data : Json) (hardware_id : String) (net : NetResult) :
    Json × Outcome (Option Json) :=
  match net with
  | .timeout => (data, .exn .reqTimeout)
  | .connectionError => (data, .exn .reqConnectionError)
  | .ok status_code body =>
      if status_code = 400 then (data, .exit 1)
      else if status_code = 401 then (data, .exit 1)
      else if status_code = 429 then (data, .exit 1)
      else if status_code = 200 then (body, .ret (some body))
      else (data, .ret none)

/-- `MacAddressLookup._get_registered_organization`: `"randomly assigned"`
when `isRand` is the value `True`, the `company` field when it is `False`,
`None` for any other value; `KeyError` (from either read) is caught. -/
def get_registered_organization (data : Json) : Except PyExn (Option Json) :=
  match (do
      let isRand ← data.index "isRand"
      match isRand with
      | .bool true => pure (some (Json.str "randomly assigned"))
      | .bool false => do
          let company ← data.index "company"
          pure (some company)
      | _ => pure none :
      Except PyExn (Option Json)) with
  | .error .keyError => .ok none
  | other => other

/-- `MacAddressLookup._get_registered_organization_address`: sentinel when
the `address` field is falsy, its value otherwise; `KeyError` caught. -/
def get_registered_organization_address (data : Json) : Except PyExn (Option Json) :=
  match (do
      let address ← data.index "address"
      if address.truthy then pure (some address)
      else pure (some (Json.str "address unavailable")) :
      Except PyExn (Option Json)) with
  | .error .keyError => .ok none
  | other => other

/-- `MacAddressLookup._get_registered_organization_country`: sentinel when
the `country` field is falsy, its value otherwise; `KeyError` caught. -/
def get_registered_organization_country (data : Json) : Except PyExn (Option Json) :=
  match (do
      let country ← data.index "country"
      if country.truthy then pure (some country)
      else pure (some (Json.str "country unavailable")) :
      Except PyExn (Option Json)) with
  | .error .keyError => .ok none
  | other => other

/-- The record-assembly lines shared by both branches of
`lookup_address_information`: the three extraction helpers read the
class-level `data` slot. -/
def build_record (mac : String) (data : Json) : Except PyExn MacRecord := do
  let registered_organization ← get_registered_organization data
  let organization_address ← get_registered_organization_address data
  let country ← get_registered_organization_country data
  pure ⟨mac, registered_organization, organization_address, country⟩

/-- The list branch of `lookup_address_information`: a record is appended
for every identifier whose fetch neither exits nor raises; the fetch's
return value is ignored and extraction reads the class slot. -/
def lookup_address_list (data : Json) :
    List (String × NetResult) → Json × Outcome (List MacRecord)
  | [] => (data, .ret [])
  | (item, net) :: rest =>
      match get_json_data data item net with
      | (d1, .exit c) => (d1, .exit c)
      | (d1, .exn e) => (d1, .exn e)
      | (d1, .ret _) =>
          match build_record item d1 with
          | .error e => (d1, .exn e)
          | .ok r =>
              let next := lookup_address_list d1 rest
              (next.1, next.2.map (r :: ·))

/-- `MacAddressLookup.lookup_address_information`, threaded over the
class-level `data` slot. -/
def lookup_address_information (data : Json) (lookup_value : LookupInput) :
    Json × Outcome (PyValue MacRecord) :=
  match lookup_value with
  | .scalar id net =>
      match get_json_data data id net with
      | (d1, .exit c) => (d1, .exit c)
      | (d1, .exn e) => (d1, .exn e)
      | (d1, .ret _) =>
          match build_record id d1 with
          | .error e => (d1, .exn e)
          | .ok r => (d1, .ret (.one r))
  | .list items =>
      let next := lookup_address_list data items
      (next.1, next.2.map .many)

end MacAddressLookup

/-! ## Concrete sample payloads used by witnesses and counterexamples -/

namespace Sample

/-- A 401 error body carrying `errors[0].detail`, as AbuseIPDB returns. -/
def rep401Body : Json :=
  .obj [("errors", .arr [.obj [("detail", .str "Authentication failed."),
                               ("status", .num 401)]])]

/-- A fully-populated reputation response body. -/
def repBody : Json := .obj [("data", .obj [
  ("ipAddress", .str "67.21.32.233"),
  ("domain", .str "example.com"),
  ("hostnames", .arr [.str "host.example.com"]),
  ("usageType", .str "Data Center"),
  ("isp", .str "Example ISP"),
  ("countryCode", .str "US"),
  ("abuseConfidenceScore", .num 10),
  ("isWhitelisted", .bool false),
  ("isTor", .bool false),
  ("totalReports", .num 3),
  ("lastReportedAt", .str "2024-07-22")])]

/-- A reputation response body whose `data` object is missing `domain`. -/
def repBodyNoDomain : Json :=
  .obj [("data", .obj [("ipAddress", .str "67.21.32.233")])]

/-- A geolocation soft-failure body: HTTP 200 with `"status": "fail"`. -/
def geoFailBody : Json :=
  .obj [("status", .str "fail"), ("message", .str "invalid query"),
        ("query", .str "bad-input")]

/-- A fully-populated geolocation success body. -/
def geoOkBody : Json := .obj [
  ("status", .str "success"),
  ("query", .str "9.9.9.9"),
  ("org", .str "Quad9"),
  ("isp", .str "Quad9 ISP"),
  ("countryCode", .str "US"),
  ("regionName", .str "California"),
  ("city", .str "Berkeley"),
  ("lat", .num 37),
  ("lon", .num (-122)),
  ("timezone", .str "America/Los_Angeles"),
  ("as", .str "AS19281 Quad9")]

/-- The record `IPGeoLocation._decoded_json` extracts from `geoOkBody`
(note `region_name` keeps its JSON quotes — the source never strips it —
and the raw `lat`/`lon` values land in the `longitude`/`latitude` fields
respectively). -/
def geoOkRecord : GeoRecord := {
  ip_address := "9.9.9.9"
  domain_name := "Quad9"
  as_number := "AS19281"
  isp_name := "Quad9 ISP"
  country_code := "US"
  region_name := "\"California\""
  city_name := "Berkeley"
  longitude := "37"
  latitude := "-122"
  timezone := "America/Los_Angeles" }

/-- A fully-populated ARIN registry response body. -/
def arinBody : Json := .obj [("net", .obj [
  ("orgRef", .obj [("@name", .str "Google LLC")]),
  ("netBlocks", .obj [("netBlock", .obj [
    ("startAddress", .obj [("$", .str "8.8.8.0")]),
    ("endAddress", .obj [("$", .str "8.8.8.255")]),
    ("cidrLength", .obj [("$", .num 24)])])])])]

/-- An ARIN registry body missing the organization reference but carrying
the net-block fields. -/
def arinBodyNoOrg : Json := .obj [("net", .obj [
  ("netBlocks", .obj [("netBlock", .obj [
    ("startAddress", .obj [("$", .str "8.8.8.0")]),
    ("endAddress", .obj [("$", .str "8.8.8.255")]),
    ("cidrLength", .obj [("$", .num 24)])])])])]

/-- A vendor response body for a non-random MAC address. -/
def macBody : Json := .obj [
  ("isRand", .bool false),
  ("company", .str "Cisco Systems Inc"),
  ("address", .str "80 West Tasman Drive San Jose CA 95134"),
  ("country", .str "US")]

/-- A vendor response body with the random-assignment flag set. -/
def macBodyRand : Json := .obj [
  ("isRand", .bool true),
  ("company", .str "Cisco Systems Inc"),
  ("address", .str "80 West Tasman Drive San Jose CA 95134"),
  ("country", .str "US")]

/-- A vendor response body missing the `address` field. -/
def macBodyNoAddress : Json := .obj [
  ("isRand", .bool false),
  ("company", .str "Cisco Systems Inc"),
  ("country", .str "US")]

end Sample

/-! ## Claim C2 — abuse-level banding -/

/-- Claim C2 counterexample: at confidence scores 10 and 50 the classifier
returns strings spelt "likley ...", not the claimed "likely ..." labels. -/
theorem C2_counterexample :
    IPReputation.determine_abuse_level 10 ≠
      some "likely not malicious but warrants further investigation" ∧
    IPReputation.determine_abuse_level 50 ≠
      some "likely malicious and warrants further investigation" := by
  constructor <;> decide

/-- Claim C2 (amended): for every integer confidence score the classifier
returns exactly: "not malicious" at 0; the source's literal "likley not
malicious but warrants further investigation" on (0,25]; the source's
literal "likley malicious and warrants further investigation" on (25,100);
"is malicious and warrants additional investigation" at 100; and no label
for any other value. -/
theorem C2_amended (confidence_score : Int) :
    (confidence_score = 0 →
      IPReputation.determine_abuse_level confidence_score = some "not malicious") ∧
    (0 < confidence_score → confidence_score ≤ 25 →
      IPReputation.determine_abuse_level confidence_score =
        some "likley not malicious but warrants further investigation") ∧
    (25 < confidence_score → confidence_score < 100 →
      IPReputation.determine_abuse_level confidence_score =
        some "likley malicious and warrants further investigation") ∧
    (confidence_score = 100 →
      IPReputation.determine_abuse_level confidence_score =
        some "is malicious and warrants additional investigation") ∧
    (confidence_score < 0 ∨ 100 < confidence_score →
      IPReputation.determine_abuse_level confidence_score = none) := by
  refine ⟨fun h => ?_, fun h1 h2 => ?_, fun h1 h2 => ?_, fun h => ?_, fun h => ?_⟩ <;>
    · unfold IPReputation.determine_abuse_level
      split_ifs <;> first | rfl | omega

/-- Claim C2 witness: the amended banding evaluated at 0, 10, 50, 100 and
101. -/
theorem C2_amended_witness :
    IPReputation.determine_abuse_level 0 = some "not malicious" ∧
    IPReputation.determine_abuse_level 10 =
      some "likley not malicious but warrants further investigation" ∧
    IPReputation.determine_abuse_level 50 =
      some "likley malicious and warrants further investigation" ∧
    IPReputation.determine_abuse_level 100 =
      some "is malicious and warrants additional investigation" ∧
    IPReputation.determine_abuse_level 101 = none :=
  ⟨(C2_amended 0).1 rfl,
   (C2_amended 10).2.1 (by decide) (by decide),
   (C2_amended 50).2.2.1 (by decide) (by decide),
   (C2_amended 100).2.2.2.1 rfl,
   (C2_amended 101).2.2.2.2 (Or.inr (by decide))⟩

/-! ## Claim C9 — vendor random-assignment flag -/

/-- Claim C9: when the vendor response's `isRand` flag is true the extracted
registered-organization value is the literal "randomly assigned", whatever
the `company` field holds; when `isRand` is false it is the `company`
field's value. -/
theorem C9_vendor_isRand (data company : Json) :
    (data.index "isRand" = .ok (.bool true) →
      MacAddressLookup.get_registered_organization data =
        .ok (some (.str "randomly assigned"))) ∧
    (data.index "isRand" = .ok (.bool false) →
     data.index "company" = .ok company →
      MacAddressLookup.get_registered_organization data = .ok (some company)) := by
  constructor
  · intro h
    unfold MacAddressLookup.get_registered_organization
    simp only [h, bind, Except.bind, pure, Except.pure]
  · intro h h2
    unfold MacAddressLookup.get_registered_organization
    simp only [h, h2, bind, Except.bind, pure, Except.pure]

/-- Claim C9 witness: the flag evaluated on the two concrete vendor bodies,
which carry the same `company` value. -/
theorem C9_vendor_isRand_witness :
    MacAddressLookup.get_registered_organization Sample.macBodyRand =
      .ok (some (.str "randomly assigned")) ∧
    MacAddressLookup.get_registered_organization Sample.macBody =
      .ok (some (.str "Cisco Systems Inc")) :=
  ⟨(C9_vendor_isRand Sample.macBodyRand (.str "Cisco Systems Inc")).1 rfl,
   (C9_vendor_isRand Sample.macBody (.str "Cisco Systems Inc")).2 rfl rfl⟩

/-! ## Claim C8 — geolocation soft failure on status "fail" -/

/-- Claim C8: an HTTP 200 geolocation response whose body carries
`"status": "fail"` yields no Record: the fetch returns no data, a scalar
lookup returns None, and in a list lookup that identifier is skipped (the
output equals the lookup over the remaining identifiers). -/
theorem C8_geo_status_fail (id : String) (body : Json)
    (items : List (String × NetResult))
    (hfail : body.index "status" = .ok (.str "fail")) :
    IPGeoLocation.get_json_data id (.ok 200 body) = .ret none ∧
    IPGeoLocation.query_geolocation_database (.scalar id (.ok 200 body)) =
      .ret .pyNone ∧
    IPGeoLocation.query_geolocation_database (.list ((id, .ok 200 body) :: items)) =
      IPGeoLocation.query_geolocation_database (.list items) := by
  have hfetch : IPGeoLocation.get_json_data id (.ok 200 body) = .ret none := by
    unfold IPGeoLocation.get_json_data
    simp only [hfail]
    rfl
  refine ⟨hfetch, ?_, ?_⟩
  · unfold IPGeoLocation.query_geolocation_database
    simp only [hfetch]
  · show Outcome.map PyValue.many
          (IPGeoLocation.query_geo_list ((id, .ok 200 body) :: items)) =
        Outcome.map PyValue.many (IPGeoLocation.query_geo_list items)
    rw [IPGeoLocation.query_geo_list]
    simp only [hfetch]

/-- Claim C8 witness: the soft-failure body evaluated on a scalar lookup and
at the head of a two-identifier list lookup. -/
theorem C8_geo_status_fail_witness :
    IPGeoLocation.query_geolocation_database
        (.scalar "bad-input" (.ok 200 Sample.geoFailBody)) = .ret .pyNone ∧
    IPGeoLocation.query_geolocation_database
        (.list [("bad-input", .ok 200 Sample.geoFailBody),
                ("9.9.9.9", .ok 200 Sample.geoOkBody)]) =
      IPGeoLocation.query_geolocation_database
        (.list [("9.9.9.9", .ok 200 Sample.geoOkBody)]) :=
  ⟨(C8_geo_status_fail "bad-input" Sample.geoFailBody [] rfl).2.1,
   (C8_geo_status_fail "bad-input" Sample.geoFailBody
      [("9.9.9.9", .ok 200 Sample.geoOkBody)] rfl).2.2⟩

/-! ## Claim C10 — geolocation swaps lat and lon -/

/-- Claim C10: whenever the geolocation extraction succeeds on a raw
response with numeric `lat` and `lon` fields, the output field named
`longitude` holds the raw `lat` value and the output field named `latitude`
holds the raw `lon` value — swapped relative to their names. -/
theorem C10_lat_lon_swapped (json_data : Json) (r : GeoRecord) (la lo : Int)
    (hlat : json_data.index "lat" = .ok (.num la))
    (hlon : json_data.index "lon" = .ok (.num lo))
    (hr : IPGeoLocation.decoded_json json_data = .ok r) :
    r.longitude = stripQuotes (toString la) ∧
    r.latitude = stripQuotes (toString lo) := by
  unfold IPGeoLocation.decoded_json at hr
  simp only [hlat, hlon, bind, Except.bind, pure, Except.pure] at hr
  repeat' split at hr
  all_goals try simp_all
  subst hr
  exact ⟨rfl, rfl⟩

/-- Claim C10 witness: the swap observed on the concrete success body,
whose `lat` is 37 and `lon` is -122. -/
theorem C10_lat_lon_swapped_witness :
    Sample.geoOkRecord.longitude = stripQuotes (toString (37 : Int)) ∧
    Sample.geoOkRecord.latitude = stripQuotes (toString (-122 : Int)) :=
  C10_lat_lon_swapped Sample.geoOkBody Sample.geoOkRecord 37 (-122) rfl rfl rfl

/-! ## Claim C1 — reputation source on HTTP 401 -/

/-- Claim C1 counterexample: a 401 response on the reputation source does
not terminate the process — the fetch reports the error and returns `None`,
and the scalar lookup returns `None` (the process continues). -/
theorem C1_counterexample :
    IPReputation.get_json_data "67.21.32.233" "bad-key" (.ok 401 Sample.rep401Body) =
      .ret none ∧
    IPReputation.get_json_data "67.21.32.233" "bad-key" (.ok 401 Sample.rep401Body) ≠
      .exit 1 ∧
    IPReputation.query_abuse_database
        (.scalar "67.21.32.233" (.ok 401 Sample.rep401Body)) "bad-key" =
      .ret .pyNone := by
  refine ⟨rfl, ?_, rfl⟩
  intro h
  exact Outcome.noConfusion (Eq.mpr (congrArg (· = Outcome.exit 1) rfl) h)

/-- Claim C1 (amended): a 401 (unauthorized) response on the reputation
source is reported and yields no data — the call never returns a Record —
but the process is not terminated; this holds whenever the 401 error body
carries `errors[0].detail`, which the reporting code itself reads. -/
theorem C1_amended (ip_address api_key : String) (body detail : Json)
    (hdet : IPReputation.error_detail body = .ok detail) :
    IPReputation.get_json_data ip_address api_key (.ok 401 body) = .ret none ∧
    IPReputation.query_abuse_database (.scalar ip_address (.ok 401 body)) api_key =
      .ret .pyNone := by
  have hfetch : IPReputation.get_json_data ip_address api_key (.ok 401 body) =
      .ret none := by
    unfold IPReputation.get_json_data
    simp only [hdet]
    rfl
  refine ⟨hfetch, ?_⟩
  unfold IPReputation.query_abuse_database
  simp only [hfetch]

/-- Claim C1 witness: the amended behaviour on the concrete 401 body. -/
theorem C1_amended_witness :
    IPReputation.get_json_data "67.21.32.233" "other-key" (.ok 401 Sample.rep401Body) =
      .ret none ∧
    IPReputation.query_abuse_database
        (.scalar "67.21.32.233" (.ok 401 Sample.rep401Body)) "other-key" =
      .ret .pyNone :=
  C1_amended "67.21.32.233" "other-key" Sample.rep401Body
    (.str "Authentication failed.") rfl

/-! ## Claim C3 — fatality of transport failures per source -/

/-- Claim C3 counterexample: a timeout (and likewise a connection error) on
the reputation source calls `sys.exit(1)` — the reputation source does not
report-and-continue. -/
theorem C3_counterexample :
    IPReputation.get_json_data "67.21.32.233" "key" .timeout = .exit 1 ∧
    IPReputation.get_json_data "67.21.32.233" "key" .connectionError = .exit 1 :=
  ⟨rfl, rfl⟩

/-- Claim C3 (amended): on a network timeout or connection error the
geolocation and reputation fetches terminate the process via `sys.exit(1)`,
and the vendor fetch propagates the transport exception uncaught (which
terminates this program, whose call chain installs no handler); only the
registry fetch reports the error and returns no data, leaving the class
slot unchanged, so a registry list lookup proceeds to the next identifier. -/
theorem C3_amended (ip api_key : String) (d : Json) (r : ArinRecord)
    (rest : List (String × NetResult))
    (hb : ArinWhois.build_record ip d = .ok r) :
    IPGeoLocation.get_json_data ip .timeout = .exit 1 ∧
    IPGeoLocation.get_json_data ip .connectionError = .exit 1 ∧
    IPReputation.get_json_data ip api_key .timeout = .exit 1 ∧
    IPReputation.get_json_data ip api_key .connectionError = .exit 1 ∧
    (MacAddressLookup.get_json_data d ip .timeout).2 = .exn .reqTimeout ∧
    (MacAddressLookup.get_json_data d ip .connectionError).2 = .exn .reqConnectionError ∧
    ArinWhois.get_whois_json d ip .timeout = (d, none) ∧
    ArinWhois.get_whois_json d ip .connectionError = (d, none) ∧
    ArinWhois.query_whois_list d ((ip, .timeout) :: rest) =
      ((ArinWhois.query_whois_list d rest).1,
       (ArinWhois.query_whois_list d rest).2.map (r :: ·)) := by
  refine ⟨rfl, rfl, rfl, rfl, rfl, rfl, rfl, rfl, ?_⟩
  rw [ArinWhois.query_whois_list]
  simp only [ArinWhois.get_whois_json, hb]

/-- Claim C3 witness: the amended classification on a concrete state and a
concrete one-element remainder; extraction over the empty class slot
produces the all-None record. -/
theorem C3_amended_witness :
    IPGeoLocation.get_json_data "9.9.9.9" .timeout = .exit 1 ∧
    IPGeoLocation.get_json_data "9.9.9.9" .connectionError = .exit 1 ∧
    IPReputation.get_json_data "9.9.9.9" "key" .timeout = .exit 1 ∧
    IPReputation.get_json_data "9.9.9.9" "key" .connectionError = .exit 1 ∧
    (MacAddressLookup.get_json_data MacAddressLookup.initial_data "9.9.9.9"
        .timeout).2 = .exn .reqTimeout ∧
    (MacAddressLookup.get_json_data MacAddressLookup.initial_data "9.9.9.9"
        .connectionError).2 = .exn .reqConnectionError ∧
    ArinWhois.get_whois_json ArinWhois.initial_data "9.9.9.9" .timeout =
      (ArinWhois.initial_data, none) ∧
    ArinWhois.get_whois_json ArinWhois.initial_data "9.9.9.9" .connectionError =
      (ArinWhois.initial_data, none) ∧
    ArinWhois.query_whois_list ArinWhois.initial_data
        [("9.9.9.9", .timeout), ("8.8.8.8", .ok 200 Sample.arinBody)] =
      ((ArinWhois.query_whois_list ArinWhois.initial_data
          [("8.8.8.8", .ok 200 Sample.arinBody)]).1,
       (ArinWhois.query_whois_list ArinWhois.initial_data
          [("8.8.8.8", .ok 200 Sample.arinBody)]).2.map
         (⟨"9.9.9.9", none, none, none⟩ :: ·)) :=
  C3_amended "9.9.9.9" "key" ArinWhois.initial_data ⟨"9.9.9.9", none, none, none⟩
    [("8.8.8.8", .ok 200 Sample.arinBody)] rfl

/-! ## Supporting lemmas on the list branches -/

/-- Whatever record the registry `build_record` assembles is keyed by the
identifier it was given. -/
theorem ArinWhois.build_record_ip (ip : String) (d : Json) (r : ArinRecord)
    (h : ArinWhois.build_record ip d = .ok r) : r.ip_address = ip := by
  unfold ArinWhois.build_record at h
  simp only [bind, Except.bind, pure, Except.pure] at h
  repeat' split at h
  all_goals try simp_all
  all_goals (subst h; rfl)

/-- The registry list branch appends one record per identifier, in input
order, keyed by that identifier. -/
theorem arin_list_ids (items : List (String × NetResult)) :
    ∀ (d : Json) (rs : List ArinRecord),
      (ArinWhois.query_whois_list d items).2 = .ret rs →
      rs.map ArinRecord.ip_address = items.map Prod.fst := by
  induction items with
  | nil =>
    intro d rs h
    rw [ArinWhois.query_whois_list] at h
    cases h
    rfl
  | cons item rest ih =>
    obtain ⟨id, net⟩ := item
    intro d rs h
    rw [ArinWhois.query_whois_list] at h
    cases hb : ArinWhois.build_record id (ArinWhois.get_whois_json d id net).1 with
    | error e => simp only [hb] at h; cases h
    | ok r =>
      simp only [hb] at h
      cases ho : (ArinWhois.query_whois_list (ArinWhois.get_whois_json d id net).1 rest).2 with
      | ret rs2 =>
        rw [ho] at h
        cases h
        simpa [ArinWhois.build_record_ip id _ r hb] using
          ih (ArinWhois.get_whois_json d id net).1 rs2 ho
      | exit c => rw [ho] at h; cases h
      | exn e => rw [ho] at h; cases h

/-- Whatever record the vendor `build_record` assembles is keyed by the
identifier it was given. -/
theorem MacAddressLookup.build_record_mac (mac : String) (d : Json) (r : MacRecord)
    (h : MacAddressLookup.build_record mac d = .ok r) : r.mac_address = mac := by
  unfold MacAddressLookup.build_record at h
  simp only [bind, Except.bind, pure, Except.pure] at h
  repeat' split at h
  all_goals try simp_all
  all_goals (subst h; rfl)

/-- The vendor list branch appends one record per identifier, in input
order, keyed by that identifier (when it completes normally). -/
theorem mac_list_ids (items : List (String × NetResult)) :
    ∀ (d : Json) (rs : List MacRecord),
      (MacAddressLookup.lookup_address_list d items).2 = .ret rs →
      rs.map MacRecord.mac_address = items.map Prod.fst := by
  induction items with
  | nil =>
    intro d rs h
    rw [MacAddressLookup.lookup_address_list] at h
    cases h
    rfl
  | cons item rest ih =>
    obtain ⟨id, net⟩ := item
    intro d rs h
    rw [MacAddressLookup.lookup_address_list] at h
    rcases hg : MacAddressLookup.get_json_data d id net with ⟨d1, o1⟩
    rw [hg] at h
    cases o1 with
    | exit c => cases h
    | exn e => cases h
    | ret o =>
      cases hb : MacAddressLookup.build_record id d1 with
      | error e => simp only [hb] at h; cases h
      | ok r =>
        simp only [hb] at h
        cases ho : (MacAddressLookup.lookup_address_list d1 rest).2 with
        | ret rs2 =>
          rw [ho] at h
          cases h
          simpa [MacAddressLookup.build_record_mac id d1 r hb] using ih d1 rs2 ho
        | exit c => rw [ho] at h; cases h
        | exn e => rw [ho] at h; cases h

/-- The record a single identifier contributes to a reputation list lookup:
the extraction of its own fetch's body, when that fetch returned truthy
data and extraction succeeds; nothing otherwise.  (In the branches where
the fetch exits or raises, or extraction fails, the lookup does not return
a list at all, so those contribute nothing to any returned list.) -/
def rep_item_record (api_key : String) (it : String × NetResult) : Option RepRecord :=
  match IPReputation.get_json_data it.1 api_key it.2 with
  | .ret (some j) =>
      if j.truthy then
        match IPReputation.decoded_json j with
        | .ok r => some r
        | .error _ => none
      else none
  | _ => none

/-- Any list the reputation list branch returns consists of exactly the
records of the no-data-free identifiers, in input order: the `filterMap`
of the per-identifier results. -/
theorem rep_list_eq_filterMap (api_key : String) (items : List (String × NetResult)) :
    ∀ (rs : List RepRecord),
      IPReputation.query_abuse_list api_key items = .ret rs →
      rs = items.filterMap (rep_item_record api_key) := by
  induction items with
  | nil =>
    intro rs h
    rw [IPReputation.query_abuse_list] at h
    cases h
    rfl
  | cons item rest ih =>
    obtain ⟨id, net⟩ := item
    intro rs h
    rw [IPReputation.query_abuse_list] at h
    cases hf : IPReputation.get_json_data id api_key net with
    | exit c => rw [hf] at h; cases h
    | exn e => rw [hf] at h; cases h
    | ret o =>
      cases o with
      | none =>
        simp only [hf] at h
        simp [List.filterMap_cons, rep_item_record, hf, ih rs h]
      | some j =>
        simp only [hf] at h
        cases ht : j.truthy with
        | false =>
          rw [ht] at h
          simp only [Bool.false_eq_true, if_false] at h
          simp [List.filterMap_cons, rep_item_record, hf, ht, ih rs h]
        | true =>
          rw [ht] at h
          simp only [if_true] at h
          cases hd : IPReputation.decoded_json j with
          | error e => rw [hd] at h; cases h
          | ok r =>
            rw [hd] at h
            cases ho : IPReputation.query_abuse_list api_key rest with
            | ret rs2 =>
              rw [ho] at h
              cases h
              simp [List.filterMap_cons, rep_item_record, hf, ht, hd, ih rs2 ho]
            | exit c => rw [ho] at h; cases h
            | exn e => rw [ho] at h; cases h

/-- The record a single identifier contributes to a geolocation list
lookup: the extraction of its own fetch's body, when that fetch returned
truthy data and extraction succeeds; nothing otherwise. -/
def geo_item_record (it : String × NetResult) : Option GeoRecord :=
  match IPGeoLocation.get_json_data it.1 it.2 with
  | .ret (some j) =>
      if j.truthy then
        match IPGeoLocation.decoded_json j with
        | .ok r => some r
        | .error _ => none
      else none
  | _ => none

/-- Any list the geolocation list branch returns consists of exactly the
records of the no-data-free identifiers, in input order: the `filterMap`
of the per-identifier results. -/
theorem geo_list_eq_filterMap (items : List (String × NetResult)) :
    ∀ (rs : List GeoRecord),
      IPGeoLocation.query_geo_list items = .ret rs →
      rs = items.filterMap geo_item_record := by
  induction items with
  | nil =>
    intro rs h
    rw [IPGeoLocation.query_geo_list] at h
    cases h
    rfl
  | cons item rest ih =>
    obtain ⟨id, net⟩ := item
    intro rs h
    rw [IPGeoLocation.query_geo_list] at h
    cases hf : IPGeoLocation.get_json_data id net with
    | exit c => rw [hf] at h; cases h
    | exn e => rw [hf] at h; cases h
    | ret o =>
      cases o with
      | none =>
        simp only [hf] at h
        simp [List.filterMap_cons, geo_item_record, hf, ih rs h]
      | some j =>
        simp only [hf] at h
        cases ht : j.truthy with
        | false =>
          rw [ht] at h
          simp only [Bool.false_eq_true, if_false] at h
          simp [List.filterMap_cons, geo_item_record, hf, ht, ih rs h]
        | true =>
          rw [ht] at h
          simp only [if_true] at h
          cases hd : IPGeoLocation.decoded_json j with
          | error e => rw [hd] at h; cases h
          | ok r =>
            rw [hd] at h
            cases ho : IPGeoLocation.query_geo_list rest with
            | ret rs2 =>
              rw [ho] at h
              cases h
              simp [List.filterMap_cons, geo_item_record, hf, ht, hd, ih rs2 ho]
            | exit c => rw [ho] at h; cases h
            | exn e => rw [ho] at h; cases h

/-! ## Further concrete records used by witnesses -/

namespace Sample

/-- The record `ArinWhois.query_whois` assembles from `arinBody`. -/
def arinRecord : ArinRecord :=
  ⟨"8.8.8.8", some (.str "Google LLC"), some "8.8.8.0-8.8.8.255", some "8.8.8.0/24"⟩

/-- The record `MacAddressLookup.lookup_address_information` assembles from
`macBody`. -/
def macRecord : MacRecord :=
  ⟨"04:7b:cb:3b:75:94", some (.str "Cisco Systems Inc"),
   some (.str "80 West Tasman Drive San Jose CA 95134"), some (.str "US")⟩

/-- The record `IPReputation._decoded_json` extracts from `repBody` (the
`host_name` field keeps its JSON form — the source never strips it — and
the abuse level is the source's misspelt band label). -/
def repRecord : RepRecord := {
  ip_address := "67.21.32.233"
  domain_name := "example.com"
  host_name := "[\"host.example.com\"]"
  usage_type := "Data Center"
  isp_name := "Example ISP"
  country_code := "US"
  confidence_of_abuse := "10"
  level_of_abuse := some "likley not malicious but warrants further investigation"
  white_listed := "false"
  tor_node := "false"
  number_of_times_reported := "3"
  date_last_reported := "2024-07-22" }

end Sample

/-! ## Claim C4 — cardinality and ordering of list results -/

/-- Claim C4 counterexample: a geolocation list lookup over two identifiers,
the first of which soft-fails, returns a single record — the failed position
is silently dropped, so the result does not contain one record per input
identifier. -/
theorem C4_counterexample :
    IPGeoLocation.query_geolocation_database
        (.list [("bad-input", .ok 200 Sample.geoFailBody),
                ("9.9.9.9", .ok 200 Sample.geoOkBody)]) =
      .ret (.many [Sample.geoOkRecord]) := rfl

/-- Claim C4 (amended): the registry and vendor list lookups return exactly
one record per input identifier, in input order, keyed by that identifier,
whenever they return a list at all; the reputation and geolocation list
lookups return exactly the records of those identifiers whose own fetch
produced truthy data, in input order — identifiers whose fetch produced no
data are silently dropped (the output is the `filterMap` of the
per-identifier results), so their output is never longer than the input. -/
theorem C4_amended :
    (∀ (d d' : Json) (items : List (String × NetResult)) (rs : List ArinRecord),
       ArinWhois.query_whois d (.list items) = (d', .ret (.many rs)) →
       rs.map ArinRecord.ip_address = items.map Prod.fst) ∧
    (∀ (d d' : Json) (items : List (String × NetResult)) (rs : List MacRecord),
       MacAddressLookup.lookup_address_information d (.list items) = (d', .ret (.many rs)) →
       rs.map MacRecord.mac_address = items.map Prod.fst) ∧
    (∀ (api_key : String) (items : List (String × NetResult)) (rs : List RepRecord),
       IPReputation.query_abuse_database (.list items) api_key = .ret (.many rs) →
       rs = items.filterMap (rep_item_record api_key) ∧ rs.length ≤ items.length) ∧
    (∀ (items : List (String × NetResult)) (rs : List GeoRecord),
       IPGeoLocation.query_geolocation_database (.list items) = .ret (.many rs) →
       rs = items.filterMap geo_item_record ∧ rs.length ≤ items.length) := by
  refine ⟨?_, ?_, ?_, ?_⟩
  · intro d d' items rs h
    have h2 : Outcome.map PyValue.many (ArinWhois.query_whois_list d items).2 =
        .ret (.many rs) := congrArg Prod.snd h
    cases ho : (ArinWhois.query_whois_list d items).2 with
    | ret rs2 => rw [ho] at h2; cases h2; exact arin_list_ids items d _ ho
    | exit c => rw [ho] at h2; cases h2
    | exn e => rw [ho] at h2; cases h2
  · intro d d' items rs h
    have h2 : Outcome.map PyValue.many (MacAddressLookup.lookup_address_list d items).2 =
        .ret (.many rs) := congrArg Prod.snd h
    cases ho : (MacAddressLookup.lookup_address_list d items).2 with
    | ret rs2 => rw [ho] at h2; cases h2; exact mac_list_ids items d _ ho
    | exit c => rw [ho] at h2; cases h2
    | exn e => rw [ho] at h2; cases h2
  · intro api_key items rs h
    have h2 : Outcome.map PyValue.many (IPReputation.query_abuse_list api_key items) =
        .ret (.many rs) := h
    cases ho : IPReputation.query_abuse_list api_key items with
    | ret rs2 =>
      rw [ho] at h2
      cases h2
      have he := rep_list_eq_filterMap api_key items _ ho
      exact ⟨he, he ▸ List.length_filterMap_le _ _⟩
    | exit c => rw [ho] at h2; cases h2
    | exn e => rw [ho] at h2; cases h2
  · intro items rs h
    have h2 : Outcome.map PyValue.many (IPGeoLocation.query_geo_list items) =
        .ret (.many rs) := h
    cases ho : IPGeoLocation.query_geo_list items with
    | ret rs2 =>
      rw [ho] at h2
      cases h2
      have he := geo_list_eq_filterMap items _ ho
      exact ⟨he, he ▸ List.length_filterMap_le _ _⟩
    | exit c => rw [ho] at h2; cases h2
    | exn e => rw [ho] at h2; cases h2

/-- Claim C4 witness: the amended facts on concrete list lookups — for the
reputation and geolocation components a two-identifier list whose first
fetch produced no data (a 429 and a status-fail body respectively), whose
output is exactly the surviving record. -/
theorem C4_amended_witness :
    [Sample.arinRecord].map ArinRecord.ip_address =
      [("8.8.8.8", NetResult.ok 200 Sample.arinBody)].map Prod.fst ∧
    [Sample.macRecord].map MacRecord.mac_address =
      [("04:7b:cb:3b:75:94", NetResult.ok 200 Sample.macBody)].map Prod.fst ∧
    ([Sample.repRecord] =
       [("1.1.1.1", NetResult.ok 429 Sample.rep401Body),
        ("67.21.32.233", NetResult.ok 200 Sample.repBody)].filterMap
         (rep_item_record "key") ∧
     [Sample.repRecord].length ≤
       [("1.1.1.1", NetResult.ok 429 Sample.rep401Body),
        ("67.21.32.233", NetResult.ok 200 Sample.repBody)].length) ∧
    ([Sample.geoOkRecord] =
       [("bad-input", NetResult.ok 200 Sample.geoFailBody),
        ("9.9.9.9", NetResult.ok 200 Sample.geoOkBody)].filterMap geo_item_record ∧
     [Sample.geoOkRecord].length ≤
       [("bad-input", NetResult.ok 200 Sample.geoFailBody),
        ("9.9.9.9", NetResult.ok 200 Sample.geoOkBody)].length) :=
  ⟨C4_amended.1 ArinWhois.initial_data Sample.arinBody
      [("8.8.8.8", .ok 200 Sample.arinBody)] [Sample.arinRecord] rfl,
   C4_amended.2.1 MacAddressLookup.initial_data Sample.macBody
      [("04:7b:cb:3b:75:94", .ok 200 Sample.macBody)] [Sample.macRecord] rfl,
   C4_amended.2.2.1 "key"
      [("1.1.1.1", .ok 429 Sample.rep401Body),
       ("67.21.32.233", .ok 200 Sample.repBody)] [Sample.repRecord] rfl,
   C4_amended.2.2.2
      [("bad-input", .ok 200 Sample.geoFailBody),
       ("9.9.9.9", .ok 200 Sample.geoOkBody)] [Sample.geoOkRecord] rfl⟩

/-! ## Claim C5 — extraction must not read an earlier identifier's response -/

/-- Claim C5 (code bug): in a registry list lookup the class-level response
slot is only overwritten on a successful fetch, so when the second
identifier's fetch times out, its record is built from the first
identifier's still-cached response: every extracted field of the second
record carries the first identifier's data. -/
theorem C5_stale_response_carry_over :
    (ArinWhois.query_whois ArinWhois.initial_data
       (.list [("8.8.8.8", .ok 200 Sample.arinBody), ("9.9.9.9", .timeout)])).2 =
      .ret (.many
        [⟨"8.8.8.8", some (.str "Google LLC"), some "8.8.8.0-8.8.8.255", some "8.8.8.0/24"⟩,
         ⟨"9.9.9.9", some (.str "Google LLC"), some "8.8.8.0-8.8.8.255", some "8.8.8.0/24"⟩]) :=
  rfl

/-! ## Claim C6 — per-field degradation during extraction -/

/-- Claim C6 counterexample: a reputation response whose `data` object is
missing the `domain` field makes the extraction raise `KeyError`, which
escapes the whole scalar lookup — the reputation component does not degrade
field-by-field. -/
theorem C6_counterexample :
    IPReputation.decoded_json Sample.repBodyNoDomain = .error .keyError ∧
    IPReputation.query_abuse_database
        (.scalar "67.21.32.233" (.ok 200 Sample.repBodyNoDomain)) "key" =
      .exn .keyError := ⟨rfl, rfl⟩

/-- The eleven `data.*` fields `IPReputation._decoded_json` reads, in the
order the source reads them. -/
def repExpectedFields : List String :=
  ["ipAddress", "domain", "hostnames", "usageType", "isp", "countryCode",
   "abuseConfidenceScore", "isWhitelisted", "isTor", "totalReports", "lastReportedAt"]

/-- The ten top-level fields `IPGeoLocation._decoded_json` reads, in the
order the source reads them. -/
def geoExpectedFields : List String :=
  ["query", "org", "isp", "countryCode", "regionName", "city", "lat", "lon",
   "timezone", "as"]

/-- Reputation extraction returns a record only when every one of its
expected fields is present: there is no per-field degradation. -/
theorem rep_decoded_ok_all_present (body : Json) (r : RepRecord)
    (h : IPReputation.decoded_json body = .ok r) :
    ∀ k ∈ repExpectedFields, ∃ v, IPReputation.data_field body k = .ok v := by
  unfold IPReputation.decoded_json at h
  simp only [bind, Except.bind, pure, Except.pure] at h
  repeat' split at h
  all_goals try exact (Except.noConfusion h)
  intro k hk
  fin_cases hk <;> exact ⟨_, by assumption⟩

/-- Geolocation extraction returns a record only when every one of its
expected fields is present: there is no per-field degradation. -/
theorem geo_decoded_ok_all_present (g : Json) (r : GeoRecord)
    (h : IPGeoLocation.decoded_json g = .ok r) :
    ∀ k ∈ geoExpectedFields, ∃ v, g.index k = .ok v := by
  unfold IPGeoLocation.decoded_json at h
  simp only [bind, Except.bind, pure, Except.pure] at h
  repeat' split at h
  all_goals try exact (Except.noConfusion h)
  intro k hk
  fin_cases hk <;> exact ⟨_, by assumption⟩

/-- Claim C6 (amended): in the registry and vendor components every missing
nested field path is caught by the getter that reads it — that getter
yields None when its path is absent (and the per-field sentinel when the
guarding value is present but falsy), getters whose paths avoid the absent
key compute from their own paths exactly as usual, and the record is
assembled from whatever the getters yield, without raising; in the
reputation and geolocation components, whichever expected field is absent,
extraction cannot return a record — it aborts the lookup for that
identifier with an uncaught error instead of degrading. -/
theorem C6_amended :
    (∀ (d : Json), ArinWhois.org_name d = .error .keyError →
       ArinWhois.get_registered_organization d = .ok none) ∧
    (∀ (d v : Json), ArinWhois.org_name d = .ok v → v.truthy = true →
       ArinWhois.get_registered_organization d = .ok (some v)) ∧
    (∀ (d v : Json), ArinWhois.org_name d = .ok v → v.truthy = false →
       ArinWhois.get_registered_organization d =
         .ok (some (.str "registered organization unavailable"))) ∧
    (∀ (d : Json), ArinWhois.net_block_field d "startAddress" = .error .keyError →
       ArinWhois.get_network_range d = .ok none ∧
       ArinWhois.get_cidr_range d = .ok none) ∧
    (∀ (d sv : Json), ArinWhois.net_block_field d "startAddress" = .ok sv →
       sv.truthy = false →
       ArinWhois.get_network_range d = .ok (some "netblock range unavailable") ∧
       ArinWhois.get_cidr_range d = .ok (some "CIDR range unavailable")) ∧
    (∀ (d sv : Json), ArinWhois.net_block_field d "startAddress" = .ok sv →
       sv.truthy = true →
       ArinWhois.net_block_field d "endAddress" = .error .keyError →
       ArinWhois.get_network_range d = .ok none) ∧
    (∀ (d sv ev : Json), ArinWhois.net_block_field d "startAddress" = .ok sv →
       sv.truthy = true →
       ArinWhois.net_block_field d "endAddress" = .ok ev →
       ArinWhois.get_network_range d = .ok (some (pyStr sv ++ "-" ++ pyStr ev))) ∧
    (∀ (d sv : Json), ArinWhois.net_block_field d "startAddress" = .ok sv →
       sv.truthy = true →
       ArinWhois.net_block_field d "cidrLength" = .error .keyError →
       ArinWhois.get_cidr_range d = .ok none) ∧
    (∀ (d sv cv : Json), ArinWhois.net_block_field d "startAddress" = .ok sv →
       sv.truthy = true →
       ArinWhois.net_block_field d "cidrLength" = .ok cv →
       ArinWhois.get_cidr_range d = .ok (some (pyStr sv ++ "/" ++ pyStr cv))) ∧
    (∀ (d : Json) (ip : String) (o1 : Option Json) (o2 o3 : Option String),
       ArinWhois.get_registered_organization d = .ok o1 →
       ArinWhois.get_network_range d = .ok o2 →
       ArinWhois.get_cidr_range d = .ok o3 →
       ArinWhois.build_record ip d = .ok ⟨ip, o1, o2, o3⟩) ∧
    (∀ (d : Json), d.index "isRand" = .error .keyError →
       MacAddressLookup.get_registered_organization d = .ok none) ∧
    (∀ (d : Json), d.index "isRand" = .ok (.bool false) →
       d.index "company" = .error .keyError →
       MacAddressLookup.get_registered_organization d = .ok none) ∧
    (∀ (d : Json), d.index "address" = .error .keyError →
       MacAddressLookup.get_registered_organization_address d = .ok none) ∧
    (∀ (d v : Json), d.index "address" = .ok v → v.truthy = true →
       MacAddressLookup.get_registered_organization_address d = .ok (some v)) ∧
    (∀ (d v : Json), d.index "address" = .ok v → v.truthy = false →
       MacAddressLookup.get_registered_organization_address d =
         .ok (some (.str "address unavailable"))) ∧
    (∀ (d : Json), d.index "country" = .error .keyError →
       MacAddressLookup.get_registered_organization_country d = .ok none) ∧
    (∀ (d v : Json), d.index "country" = .ok v → v.truthy = true →
       MacAddressLookup.get_registered_organization_country d = .ok (some v)) ∧
    (∀ (d v : Json), d.index "country" = .ok v → v.truthy = false →
       MacAddressLookup.get_registered_organization_country d =
         .ok (some (.str "country unavailable"))) ∧
    (∀ (d : Json) (mac : String) (o1 o2 o3 : Option Json),
       MacAddressLookup.get_registered_organization d = .ok o1 →
       MacAddressLookup.get_registered_organization_address d = .ok o2 →
       MacAddressLookup.get_registered_organization_country d = .ok o3 →
       MacAddressLookup.build_record mac d = .ok ⟨mac, o1, o2, o3⟩) ∧
    (∀ (body : Json) (k : String), k ∈ repExpectedFields →
       IPReputation.data_field body k = .error .keyError →
       ∃ e, IPReputation.decoded_json body = .error e) ∧
    (∀ (g : Json) (k : String), k ∈ geoExpectedFields →
       g.index k = .error .keyError →
       ∃ e, IPGeoLocation.decoded_json g = .error e) := by
  refine ⟨?_, ?_, ?_, ?_, ?_, ?_, ?_, ?_, ?_, ?_, ?_, ?_, ?_, ?_, ?_, ?_, ?_, ?_, ?_,
    ?_, ?_⟩
  · intro d h
    unfold ArinWhois.get_registered_organization
    simp only [h, bind, Except.bind]
  · intro d v h ht
    unfold ArinWhois.get_registered_organization
    simp [h, ht, bind, Except.bind, pure, Except.pure]
  · intro d v h ht
    unfold ArinWhois.get_registered_organization
    simp [h, ht, bind, Except.bind, pure, Except.pure]
  · intro d h
    constructor
    · unfold ArinWhois.get_network_range
      simp only [h, bind, Except.bind]
    · unfold ArinWhois.get_cidr_range
      simp only [h, bind, Except.bind]
  · intro d sv h ht
    constructor
    · unfold ArinWhois.get_network_range
      simp [h, ht, bind, Except.bind, pure, Except.pure]
    · unfold ArinWhois.get_cidr_range
      simp [h, ht, bind, Except.bind, pure, Except.pure]
  · intro d sv h ht he
    unfold ArinWhois.get_network_range
    simp [h, ht, he, bind, Except.bind, pure, Except.pure]
  · intro d sv ev h ht he
    unfold ArinWhois.get_network_range
    simp [h, ht, he, bind, Except.bind, pure, Except.pure]
  · intro d sv h ht hc
    unfold ArinWhois.get_cidr_range
    simp [h, ht, hc, bind, Except.bind, pure, Except.pure]
  · intro d sv cv h ht hc
    unfold ArinWhois.get_cidr_range
    simp [h, ht, hc, bind, Except.bind, pure, Except.pure]
  · intro d ip o1 o2 o3 h1 h2 h3
    unfold ArinWhois.build_record
    simp only [h1, h2, h3, bind, Except.bind, pure, Except.pure]
  · intro d h
    unfold MacAddressLookup.get_registered_organization
    simp only [h, bind, Except.bind]
  · intro d h hc
    unfold MacAddressLookup.get_registered_organization
    simp [h, hc, bind, Except.bind, pure, Except.pure]
  · intro d h
    unfold MacAddressLookup.get_registered_organization_address
    simp only [h, bind, Except.bind]
  · intro d v h ht
    unfold MacAddressLookup.get_registered_organization_address
    simp [h, ht, bind, Except.bind, pure, Except.pure]
  · intro d v h ht
    unfold MacAddressLookup.get_registered_organization_address
    simp [h, ht, bind, Except.bind, pure, Except.pure]
  · intro d h
    unfold MacAddressLookup.get_registered_organization_country
    simp only [h, bind, Except.bind]
  · intro d v h ht
    unfold MacAddressLookup.get_registered_organization_country
    simp [h, ht, bind, Except.bind, pure, Except.pure]
  · intro d v h ht
    unfold MacAddressLookup.get_registered_organization_country
    simp [h, ht, bind, Except.bind, pure, Except.pure]
  · intro d mac o1 o2 o3 h1 h2 h3
    unfold MacAddressLookup.build_record
    simp only [h1, h2, h3, bind, Except.bind, pure, Except.pure]
  · intro body k hk hm
    cases hd : IPReputation.decoded_json body with
    | error e => exact ⟨e, rfl⟩
    | ok r =>
      obtain ⟨v, hv⟩ := rep_decoded_ok_all_present body r hd k hk
      rw [hm] at hv
      exact absurd hv (fun hv => Except.noConfusion hv)
  · intro g k hk hm
    cases hd : IPGeoLocation.decoded_json g with
    | error e => exact ⟨e, rfl⟩
    | ok r =>
      obtain ⟨v, hv⟩ := geo_decoded_ok_all_present g r hd k hk
      rw [hm] at hv
      exact absurd hv (fun hv => Except.noConfusion hv)

/-- An ARIN registry body whose organization name is present but empty. -/
def Sample.arinBodyEmptyOrg : Json :=
  .obj [("net", .obj [("orgRef", .obj [("@name", .str "")])])]

/-- An ARIN registry body whose net-block start address is present but
empty. -/
def Sample.arinBodyEmptyStart : Json :=
  .obj [("net", .obj [("netBlocks", .obj [("netBlock", .obj [
    ("startAddress", .obj [("$", .str "")])])])])]

/-- An ARIN registry body with start address and CIDR length but no end
address. -/
def Sample.arinBodyNoEnd : Json :=
  .obj [("net", .obj [("netBlocks", .obj [("netBlock", .obj [
    ("startAddress", .obj [("$", .str "8.8.8.0")]),
    ("cidrLength", .obj [("$", .num 24)])])])])]

/-- An ARIN registry body with start and end addresses but no CIDR
length. -/
def Sample.arinBodyNoCidr : Json :=
  .obj [("net", .obj [("netBlocks", .obj [("netBlock", .obj [
    ("startAddress", .obj [("$", .str "8.8.8.0")]),
    ("endAddress", .obj [("$", .str "8.8.8.255")])])])])]

/-- A vendor body whose address and country fields are present but
empty. -/
def Sample.macBodyEmptyFields : Json := .obj [
  ("isRand", .bool false),
  ("company", .str "Cisco Systems Inc"),
  ("address", .str ""),
  ("country", .str "")]

/-- Claim C6 witness: every part of the amended per-field behaviour
exercised on concrete bodies — each registry and vendor field missing,
empty and present in turn, and a missing inner field for each of the
raising components. -/
theorem C6_amended_witness :
    ArinWhois.get_registered_organization Sample.arinBodyNoOrg = .ok none ∧
    ArinWhois.get_registered_organization Sample.arinBody =
      .ok (some (.str "Google LLC")) ∧
    ArinWhois.get_registered_organization Sample.arinBodyEmptyOrg =
      .ok (some (.str "registered organization unavailable")) ∧
    (ArinWhois.get_network_range (Json.obj []) = .ok none ∧
     ArinWhois.get_cidr_range (Json.obj []) = .ok none) ∧
    (ArinWhois.get_network_range Sample.arinBodyEmptyStart =
       .ok (some "netblock range unavailable") ∧
     ArinWhois.get_cidr_range Sample.arinBodyEmptyStart =
       .ok (some "CIDR range unavailable")) ∧
    ArinWhois.get_network_range Sample.arinBodyNoEnd = .ok none ∧
    ArinWhois.get_network_range Sample.arinBody = .ok (some "8.8.8.0-8.8.8.255") ∧
    ArinWhois.get_cidr_range Sample.arinBodyNoCidr = .ok none ∧
    ArinWhois.get_cidr_range Sample.arinBody = .ok (some "8.8.8.0/24") ∧
    ArinWhois.build_record "8.8.8.8" Sample.arinBody =
      .ok ⟨"8.8.8.8", some (.str "Google LLC"), some "8.8.8.0-8.8.8.255",
           some "8.8.8.0/24"⟩ ∧
    MacAddressLookup.get_registered_organization (Json.obj []) = .ok none ∧
    MacAddressLookup.get_registered_organization
      (Json.obj [("isRand", Json.bool false)]) = .ok none ∧
    MacAddressLookup.get_registered_organization_address Sample.macBodyNoAddress =
      .ok none ∧
    MacAddressLookup.get_registered_organization_address Sample.macBody =
      .ok (some (.str "80 West Tasman Drive San Jose CA 95134")) ∧
    MacAddressLookup.get_registered_organization_address Sample.macBodyEmptyFields =
      .ok (some (.str "address unavailable")) ∧
    MacAddressLookup.get_registered_organization_country (Json.obj []) = .ok none ∧
    MacAddressLookup.get_registered_organization_country Sample.macBody =
      .ok (some (.str "US")) ∧
    MacAddressLookup.get_registered_organization_country Sample.macBodyEmptyFields =
      .ok (some (.str "country unavailable")) ∧
    MacAddressLookup.build_record "04:7b:cb:3b:75:94" Sample.macBody =
      .ok ⟨"04:7b:cb:3b:75:94", some (.str "Cisco Systems Inc"),
           some (.str "80 West Tasman Drive San Jose CA 95134"),
           some (.str "US")⟩ ∧
    (∃ e, IPReputation.decoded_json Sample.repBodyNoDomain = .error e) ∧
    (∃ e, IPGeoLocation.decoded_json Sample.geoFailBody = .error e) := by
  obtain ⟨p1, p2, p3, p4, p5, p6, p7, p8, p9, p10, p11, p12, p13, p14, p15, p16, p17,
    p18, p19, p20, p21⟩ := C6_amended
  exact ⟨p1 Sample.arinBodyNoOrg rfl,
         p2 Sample.arinBody (.str "Google LLC") rfl rfl,
         p3 Sample.arinBodyEmptyOrg (.str "") rfl rfl,
         p4 (Json.obj []) rfl,
         p5 Sample.arinBodyEmptyStart (.str "") rfl rfl,
         p6 Sample.arinBodyNoEnd (.str "8.8.8.0") rfl rfl rfl,
         p7 Sample.arinBody (.str "8.8.8.0") (.str "8.8.8.255") rfl rfl rfl,
         p8 Sample.arinBodyNoCidr (.str "8.8.8.0") rfl rfl rfl,
         p9 Sample.arinBody (.str "8.8.8.0") (.num 24) rfl rfl rfl,
         p10 Sample.arinBody "8.8.8.8" (some (.str "Google LLC"))
           (some "8.8.8.0-8.8.8.255") (some "8.8.8.0/24") rfl rfl rfl,
         p11 (Json.obj []) rfl,
         p12 (Json.obj [("isRand", Json.bool false)]) rfl rfl,
         p13 Sample.macBodyNoAddress rfl,
         p14 Sample.macBody (.str "80 West Tasman Drive San Jose CA 95134") rfl rfl,
         p15 Sample.macBodyEmptyFields (.str "") rfl rfl,
         p16 (Json.obj []) rfl,
         p17 Sample.macBody (.str "US") rfl rfl,
         p18 Sample.macBodyEmptyFields (.str "") rfl rfl,
         p19 Sample.macBody "04:7b:cb:3b:75:94" (some (.str "Cisco Systems Inc"))
           (some (.str "80 West Tasman Drive San Jose CA 95134"))
           (some (.str "US")) rfl rfl rfl,
         p20 Sample.repBodyNoDomain "domain" (by decide) rfl,
         p21 Sample.geoFailBody "lat" (by decide) rfl⟩

/-! ## Claim C7 — scalar lookups and failed fetches -/

/-- Claim C7 counterexample: on scalar input with a failed fetch, the
registry and vendor components still assemble and return a Record (with
None fields here) instead of returning no result. -/
theorem C7_counterexample :
    (ArinWhois.query_whois ArinWhois.initial_data (.scalar "1.2.3.4" .timeout)).2 =
      .ret (.one ⟨"1.2.3.4", none, none, none⟩) ∧
    (MacAddressLookup.lookup_address_information MacAddressLookup.initial_data
       (.scalar "04:7b:cb:3b:75:94" (.ok 404 .null))).2 =
      .ret (.one ⟨"04:7b:cb:3b:75:94", none, none, none⟩) := ⟨rfl, rfl⟩

/-- Claim C7 (amended): on scalar input the reputation and geolocation
components return a single Record (keyed by the source's `ip_address`
field) when the fetch succeeds with truthy data and extraction succeeds,
and no result when the fetch produced no data; the registry and vendor
components instead always assemble and return a Record keyed by the
identifier — even when the fetch produced no data — with fields extracted
from whatever the class-level slot then holds. -/
theorem C7_amended :
    (∀ (id api_key : String) (net : NetResult),
       IPReputation.get_json_data id api_key net = .ret none →
       IPReputation.query_abuse_database (.scalar id net) api_key = .ret .pyNone) ∧
    (∀ (id api_key : String) (net : NetResult) (j : Json) (r : RepRecord),
       IPReputation.get_json_data id api_key net = .ret (some j) →
       j.truthy = true →
       IPReputation.decoded_json j = .ok r →
       IPReputation.query_abuse_database (.scalar id net) api_key = .ret (.one r)) ∧
    (∀ (id : String) (net : NetResult),
       IPGeoLocation.get_json_data id net = .ret none →
       IPGeoLocation.query_geolocation_database (.scalar id net) = .ret .pyNone) ∧
    (∀ (id : String) (net : NetResult) (j : Json) (r : GeoRecord),
       IPGeoLocation.get_json_data id net = .ret (some j) →
       j.truthy = true →
       IPGeoLocation.decoded_json j = .ok r →
       IPGeoLocation.query_geolocation_database (.scalar id net) = .ret (.one r)) ∧
    (∀ (d : Json) (id : String) (net : NetResult) (r : ArinRecord),
       ArinWhois.build_record id (ArinWhois.get_whois_json d id net).1 = .ok r →
       (ArinWhois.query_whois d (.scalar id net)).2 = .ret (.one r) ∧
         r.ip_address = id) ∧
    (∀ (d : Json) (id : String) (net : NetResult) (o : Option Json) (r : MacRecord),
       (MacAddressLookup.get_json_data d id net).2 = .ret o →
       MacAddressLookup.build_record id (MacAddressLookup.get_json_data d id net).1 = .ok r →
       (MacAddressLookup.lookup_address_information d (.scalar id net)).2 = .ret (.one r) ∧
         r.mac_address = id) := by
  refine ⟨?_, ?_, ?_, ?_, ?_, ?_⟩
  · intro id api_key net h
    unfold IPReputation.query_abuse_database
    simp only [h]
  · intro id api_key net j r hf ht hd
    unfold IPReputation.query_abuse_database
    simp only [hf, ht, if_true, hd]
  · intro id net h
    unfold IPGeoLocation.query_geolocation_database
    simp only [h]
  · intro id net j r hf ht hd
    unfold IPGeoLocation.query_geolocation_database
    simp only [hf, ht, if_true, hd]
  · intro d id net r hb
    refine ⟨?_, ArinWhois.build_record_ip id _ r hb⟩
    unfold ArinWhois.query_whois
    simp only [hb]
  · intro d id net o r hg hb
    refine ⟨?_, MacAddressLookup.build_record_mac id _ r hb⟩
    rcases hp : MacAddressLookup.get_json_data d id net with ⟨d1, o1⟩
    rw [hp] at hg hb
    simp only at hg hb
    subst hg
    unfold MacAddressLookup.lookup_address_information
    simp only [hp, hb]

/-- Claim C7 witness: the amended scalar behaviour on concrete fetch
results for all four components. -/
theorem C7_amended_witness :
    IPReputation.query_abuse_database (.scalar "10.0.0.1" (.ok 404 .null)) "key" =
      .ret .pyNone ∧
    IPReputation.query_abuse_database
        (.scalar "67.21.32.233" (.ok 200 Sample.repBody)) "key" =
      .ret (.one Sample.repRecord) ∧
    IPGeoLocation.query_geolocation_database
        (.scalar "bad-input" (.ok 200 Sample.geoFailBody)) = .ret .pyNone ∧
    IPGeoLocation.query_geolocation_database
        (.scalar "9.9.9.9" (.ok 200 Sample.geoOkBody)) =
      .ret (.one Sample.geoOkRecord) ∧
    ((ArinWhois.query_whois ArinWhois.initial_data (.scalar "7.7.7.7" .timeout)).2 =
        .ret (.one ⟨"7.7.7.7", none, none, none⟩) ∧
      (⟨"7.7.7.7", none, none, none⟩ : ArinRecord).ip_address = "7.7.7.7") ∧
    ((MacAddressLookup.lookup_address_information MacAddressLookup.initial_data
        (.scalar "aa:bb:cc:dd:ee:ff" (.ok 500 .null))).2 =
        .ret (.one ⟨"aa:bb:cc:dd:ee:ff", none, none, none⟩) ∧
      (⟨"aa:bb:cc:dd:ee:ff", none, none, none⟩ : MacRecord).mac_address =
        "aa:bb:cc:dd:ee:ff") :=
  ⟨C7_amended.1 "10.0.0.1" "key" (.ok 404 .null) rfl,
   C7_amended.2.1 "67.21.32.233" "key" (.ok 200 Sample.repBody) Sample.repBody
     Sample.repRecord rfl rfl rfl,
   C7_amended.2.2.1 "bad-input" (.ok 200 Sample.geoFailBody) rfl,
   C7_amended.2.2.2.1 "9.9.9.9" (.ok 200 Sample.geoOkBody) Sample.geoOkBody
     Sample.geoOkRecord rfl rfl rfl,
   C7_amended.2.2.2.2.1 ArinWhois.initial_data "7.7.7.7" .timeout
     ⟨"7.7.7.7", none, none, none⟩ rfl,
   C7_amended.2.2.2.2.2 MacAddressLookup.initial_data "aa:bb:cc:dd:ee:ff"
     (.ok 500 .null) none ⟨"aa:bb:cc:dd:ee:ff", none, none, none⟩ rfl rfl⟩
